import Mathlib

/-!
# catima: the inline `calculate` overloads and the spline energy queries

`catima.h` declares the public query functions of the library and defines
three of them inline: the `calculate` overloads that take an extra energy
or that omit the `Phasespace`.  Every other function of the header is only
declared there.

The first part of this development embeds the three inline overloads.  The
functions they delegate to are declared in the header and defined elsewhere,
so they appear as parameters; the value types they move around (`Material`,
`Config`, `Result`, `Layers`, `Phasespace`, `MultiResult`, and the carrier of
C++ `double`) are type parameters, because the overloads never look inside
them.

The second part models, from the specification, the spline energy queries
`energy_out` / `energy_in` and `operator==` on `Config`, whose definitions
are not in the header.
-/

namespace catima

/-! ## Data model -/

/-- Modelled from the spec: `struct Projectile` is declared in
`catima/structures.h`, which is not among the sources; the fields are those
of spec §3: mass number `A`, atomic number `Z` (an integer), charge state `Q`
and kinetic energy per nucleon `T`.  `D` is the carrier of C++ `double`. -/
structure Projectile (D : Type) where
  A : D
  Z : Int
  Q : D
  T : D
  deriving DecidableEq, Repr

/-- Modelled from the spec: `Projectile::operator()(double)` is declared in
`catima/structures.h`, which is not among the sources; by spec §3 the
projectile is a mutable value whose `T` the `calculate` overloads adjust
before use, so `p(e)` is `p` with its kinetic energy set to `e`. -/
def Projectile.call {D : Type} (p : Projectile D) (e : D) : Projectile D :=
  { p with T := e }

/-- What is left of one call `calculate(arg, t, T, c)` once it returns: the
caller's object `caller`, the by-value parameter `param` at the end of the
body, and the returned value `result`. -/
structure CallFrame (D Res : Type) where
  caller : Projectile D
  param : Projectile D
  result : Res

/-! ## The inline overloads of `calculate` (catima.h, lines 214-245) -/

section Overloads

variable {D Mat Cfg Res Lay Phs MRes : Type}

/-- The body of
`inline Result calculate(Projectile p, const Material &t, double T, const Config &c)`
(catima.h:214-217), run on the argument `arg` of the caller.  The parameter
`p` is taken by value, so the body works on a copy:
```
p.T = T;
return calculate(p, t, c);
```
`calculate` is the three-argument overload `calculate(Projectile, const
Material&, const Config&)` declared at catima.h:213 and defined elsewhere. -/
def calculate_T_frame (calculate : Projectile D → Mat → Cfg → Res)
    (arg : Projectile D) (t : Mat) (T : D) (c : Cfg) : CallFrame D Res :=
  let p := arg
  let p := { p with T := T }
  { caller := arg, param := p, result := calculate p t c }

/-- The value returned by `calculate(p, t, T, c)` (catima.h:214-217). -/
def calculate_T (calculate : Projectile D → Mat → Cfg → Res)
    (p : Projectile D) (t : Mat) (T : D) (c : Cfg) : Res :=
  (calculate_T_frame calculate p t T c).result

/-- The overload
`inline MultiResult calculate(const Projectile &p, const Layers &layers, const Config &c)`
(catima.h:240-242):
```
return calculate(p, {}, layers, c);
```
At this point of the header the only four-argument overload in scope whose
third parameter accepts a `Layers` is `calculate(const Projectile&, const
Phasespace&, const Layers&, const Config&)` (catima.h:233), the parameter
`calculate` here; `{}` value-initialises its `Phasespace` parameter, which
is `default`. -/
def calculate_layers [Inhabited Phs]
    (calculate : Projectile D → Phs → Lay → Cfg → MRes)
    (p : Projectile D) (layers : Lay) (c : Cfg) : MRes :=
  calculate p default layers c

/-- The overload
`inline MultiResult calculate(Projectile p, double T, const Layers &layers, const Config &c)`
(catima.h:243-245):
```
return calculate(p(T), layers, c);
```
The call resolves to the overload of lines 240-242.  `call` is
`Projectile::operator()(double)`, applied to the by-value parameter `p`. -/
def calculate_T_layers [Inhabited Phs]
    (call : Projectile D → D → Projectile D)
    (calculate : Projectile D → Phs → Lay → Cfg → MRes)
    (p : Projectile D) (T : D) (layers : Lay) (c : Cfg) : MRes :=
  calculate_layers calculate (call p T) layers c

end Overloads

/-! ## The spline energy queries (declared at catima.h:153-205)

`energy_out`, `energy_in` and their overloads are declared in the header and
defined elsewhere.  They are modelled here from spec §4.2 and §4.4, with
energies and areal densities as exact rationals. -/

/-- Modelled from the spec: `class Interpolator` is declared outside
`catima.h`.  By spec §3 and §4.2 it owns sample nodes over a fixed energy
grid and offers `evaluate`, `derivative` and `invert`; `xmin` and `xmax` are
the ends of the grid. -/
structure Interpolator where
  xmin : ℚ
  xmax : ℚ
  evaluate : ℚ → ℚ
  derivative : ℚ → ℚ
  invert : ℚ → ℚ

/-- Modelled from the spec: `energy_out(double T, double thickness, const
Interpolator &range_spline)` is declared at catima.h:160 and defined
elsewhere.  Spec §4.4: take the entry range `R(T)` from the range spline,
subtract `thickness`, invert to get the exit energy; if `thickness ≥ R(T)`
the projectile stops and the energy returned is 0. -/
def energy_out (T thickness : ℚ) (range_spline : Interpolator) : ℚ :=
  let range := range_spline.evaluate T
  if range ≤ thickness then 0
  else range_spline.invert (range - thickness)

section Queries

variable {Mat Cfg : Type}

/-- Modelled from the spec: `energy_out(const Projectile &p, const Material
&t, const Config &c)` is declared at catima.h:169 and defined elsewhere.
Spec §4.3 and §4.4: the query is answered from the range spline of the
`DataPoint` of `(p, t, c)`, at the projectile's energy `p.T` and the
material's areal density.  `get_range_spline` is that spline and `thickness`
the areal density of a material, both outside the header. -/
def energy_out_p (get_range_spline : Projectile ℚ → Mat → Cfg → Interpolator)
    (thickness : Mat → ℚ) (p : Projectile ℚ) (t : Mat) (c : Cfg) : ℚ :=
  energy_out p.T (thickness t) (get_range_spline p t c)

/-- Modelled from the spec: `energy_out(const Projectile &p, const
std::vector<double> &T, const Material &t, const Config &c)` is declared at
catima.h:178 and defined elsewhere.  Spec §4.4: the spline set of
`(p, t, c)` is constructed once and the scalar operation is applied to the
energies one after the other, each result appended to the output. -/
def energy_out_vec (get_range_spline : Projectile ℚ → Mat → Cfg → Interpolator)
    (thickness : Mat → ℚ) (p : Projectile ℚ) (T : List ℚ) (t : Mat) (c : Cfg) :
    List ℚ :=
  let range_spline := get_range_spline p t c
  T.foldl (fun res e => res ++ [energy_out e (thickness t) range_spline]) []

end Queries

/-- A range spline used as a concrete input: range `2 * T` over the grid
`[0, 10]`, clamped at the grid ends. -/
def linear_spline : Interpolator where
  xmin := 0
  xmax := 10
  evaluate := fun x => 2 * max 0 (min x 10)
  derivative := fun _ => 2
  invert := fun y => max 0 (min (y / 2) 10)

/-- Modelled from the spec: `struct Config` is declared in `catima/config.h`,
which is not among the sources.  The fields are the categories spec §6
requires: the effective-charge model selector, the energy-loss-straggling
model selector, the angular-scattering model/order selector, the
low-energy-extrapolation switch, and the grid-resolution and accuracy tuning
parameters. -/
structure Config where
  z_effective : Nat
  energy_straggling : Nat
  scattering : Nat
  low_energy : Bool
  grid_resolution : Nat
  accuracy : Nat
  deriving Repr

/-- Modelled from the spec: `operator==(const Config&, const Config&)` is
declared at catima.h:272 and defined elsewhere.  Spec §3: two configs are
equal iff every toggle and tuning parameter matches; the comparison goes
through the fields one by one. -/
def Config.operator_eq (a b : Config) : Bool :=
  a.z_effective == b.z_effective
    && a.energy_straggling == b.energy_straggling
    && a.scattering == b.scattering
    && a.low_energy == b.low_energy
    && a.grid_resolution == b.grid_resolution
    && a.accuracy == b.accuracy

/-! ## Theorems -/

section OverloadTheorems

variable {D Mat Cfg Res Lay Phs MRes : Type}

/-- C1: `calculate(p, t, T, c)` returns exactly `calculate(p', t, c)` where
`p'` has the fields `A`, `Z`, `Q` of `p` and the energy `T` of the argument;
the material and the config reach the delegate unchanged; the assignment
`p.T = T` lands in the by-value parameter and the caller's projectile is the
one it was before the call. -/
theorem calculate_T_delegates (calculate : Projectile D → Mat → Cfg → Res)
    (p : Projectile D) (t : Mat) (T : D) (c : Cfg) :
    calculate_T calculate p t T c
        = calculate { A := p.A, Z := p.Z, Q := p.Q, T := T } t c
      ∧ (calculate_T_frame calculate p t T c).param
          = { A := p.A, Z := p.Z, Q := p.Q, T := T }
      ∧ (calculate_T_frame calculate p t T c).caller = p :=
  ⟨rfl, rfl, rfl⟩

/-- C2: `calculate(p, layers, c)` without a `Phasespace` returns exactly
the four-argument `calculate(p, ps0, layers, c)` at the default-constructed
`Phasespace` `ps0`, with `p`, `layers` and `c` passed on unchanged. -/
theorem calculate_layers_default_phasespace [Inhabited Phs]
    (calculate : Projectile D → Phs → Lay → Cfg → MRes)
    (p : Projectile D) (layers : Lay) (c : Cfg) :
    calculate_layers calculate p layers c
      = calculate p (default : Phs) layers c :=
  rfl

/-- C3: `calculate(p, T, layers, c)` returns exactly the canonical
four-argument `calculate(p(T), ps0, layers, c)` at the default `Phasespace`,
whatever `operator()` is; with `operator()` as the spec describes it, `p(T)`
is `p` with its kinetic energy set to `T` and its other fields kept. -/
theorem calculate_T_layers_delegates [Inhabited Phs]
    (calculate : Projectile D → Phs → Lay → Cfg → MRes)
    (p : Projectile D) (T : D) (layers : Lay) (c : Cfg) :
    (∀ call : Projectile D → D → Projectile D,
        calculate_T_layers call calculate p T layers c
          = calculate (call p T) (default : Phs) layers c)
      ∧ calculate_T_layers Projectile.call calculate p T layers c
          = calculate { A := p.A, Z := p.Z, Q := p.Q, T := T }
              (default : Phs) layers c :=
  ⟨fun _ => rfl, rfl⟩

/-- C10: the energy stored in the projectile passed to
`calculate(p, t, T, c)` does not influence the result: two projectiles that
agree on `A`, `Z` and `Q` give the same result for the same material, energy
argument and config. -/
theorem calculate_T_ignores_stored_energy
    (calculate : Projectile D → Mat → Cfg → Res)
    (p1 p2 : Projectile D) (t : Mat) (T : D) (c : Cfg)
    (hA : p1.A = p2.A) (hZ : p1.Z = p2.Z) (hQ : p1.Q = p2.Q) :
    calculate_T calculate p1 t T c = calculate_T calculate p2 t T c := by
  cases p1
  cases p2
  simp only at hA hZ hQ
  subst hA hZ hQ
  rfl

/-- C10 at a concrete input: carbon-12 stored at 100 MeV/u and at 250 MeV/u,
queried at 40 MeV/u, against a delegate that reads every field. -/
theorem calculate_T_ignores_stored_energy_witness :
    calculate_T (fun (p : Projectile Int) (t : Int) (c : Int) => p.A + p.Z + p.Q + p.T + t + c)
        { A := 12, Z := 6, Q := 6, T := 100 } 3 40 1
      = calculate_T (fun (p : Projectile Int) (t : Int) (c : Int) => p.A + p.Z + p.Q + p.T + t + c)
        { A := 12, Z := 6, Q := 6, T := 250 } 3 40 1 :=
  calculate_T_ignores_stored_energy _ _ _ 3 40 1 rfl rfl rfl

end OverloadTheorems

/-! ### Helper lemmas -/

/-- A loop that appends `f e` for each `e` builds the mapped list after the
accumulator. -/
theorem foldl_append_singleton {α β : Type} (f : α → β) (l : List α) (acc : List β) :
    l.foldl (fun res e => res ++ [f e]) acc = acc ++ l.map f := by
  induction l generalizing acc with
  | nil => simp
  | cons a l ih => simp [List.foldl_cons, ih]

/-- C6: the vector overload of `energy_out` returns, for the energies
`[T1, ..., Tn]`, a sequence of the same length whose i-th element is the
scalar `energy_out` of the projectile `p` at energy `Ti`, same material and
config, in the order of the input.  The range spline is that of the
`DataPoint`, whose key is the projectile species and not its energy. -/
theorem energy_out_vec_elementwise {Mat Cfg : Type}
    (get_range_spline : Projectile ℚ → Mat → Cfg → Interpolator)
    (thickness : Mat → ℚ) (p : Projectile ℚ) (T : List ℚ) (t : Mat) (c : Cfg)
    (hkey : ∀ e : ℚ, get_range_spline { A := p.A, Z := p.Z, Q := p.Q, T := e } t c
        = get_range_spline p t c) :
    energy_out_vec get_range_spline thickness p T t c
        = T.map (fun Ti => energy_out_p get_range_spline thickness
            { A := p.A, Z := p.Z, Q := p.Q, T := Ti } t c)
      ∧ (energy_out_vec get_range_spline thickness p T t c).length = T.length
      ∧ ∀ (i : Nat) (h : i < T.length),
          (energy_out_vec get_range_spline thickness p T t c)[i]?
            = some (energy_out_p get_range_spline thickness
                { A := p.A, Z := p.Z, Q := p.Q, T := T.get ⟨i, h⟩ } t c) := by
  have hmap : energy_out_vec get_range_spline thickness p T t c
      = T.map (fun Ti => energy_out_p get_range_spline thickness
          { A := p.A, Z := p.Z, Q := p.Q, T := Ti } t c) := by
    unfold energy_out_vec
    simp only
    rw [foldl_append_singleton, List.nil_append]
    apply List.map_congr_left
    intro e _
    unfold energy_out_p
    rw [hkey e]
  refine ⟨hmap, ?_, ?_⟩
  · rw [hmap, List.length_map]
  · intro i h
    rw [hmap, List.getElem?_map, List.getElem?_eq_getElem h]
    rfl

/-- C6 at a concrete input: three energies through thickness 4 on
`linear_spline`; the second one is stopped. -/
theorem energy_out_vec_elementwise_witness :
    energy_out_vec (fun (_ : Projectile ℚ) (_ : ℚ) (_ : Nat) => linear_spline)
        (fun t => t) { A := 12, Z := 6, Q := 6, T := 9 } [6, 1, 8] 4 0
      = [4, 0, 6] := by
  have h := (energy_out_vec_elementwise
    (fun (_ : Projectile ℚ) (_ : ℚ) (_ : Nat) => linear_spline)
    (fun t => t) { A := 12, Z := 6, Q := 6, T := 9 } [6, 1, 8] 4 0 (fun _ => rfl)).1
  rw [h]
  norm_num [energy_out_p, energy_out, linear_spline]

/-! ### Config equality -/

/-- C8: `operator==` on `Config` holds iff every toggle and every tuning
parameter of the two configs agree; it is reflexive, symmetric and
transitive, and changing any single field of a config gives a config that is
not equal to it. -/
theorem Config.operator_eq_iff :
    (∀ a b : Config, Config.operator_eq a b = true ↔
        (a.z_effective = b.z_effective ∧ a.energy_straggling = b.energy_straggling
          ∧ a.scattering = b.scattering ∧ a.low_energy = b.low_energy
          ∧ a.grid_resolution = b.grid_resolution ∧ a.accuracy = b.accuracy))
      ∧ (∀ a : Config, Config.operator_eq a a = true)
      ∧ (∀ a b : Config, Config.operator_eq a b = Config.operator_eq b a)
      ∧ (∀ a b c : Config, Config.operator_eq a b = true →
          Config.operator_eq b c = true → Config.operator_eq a c = true)
      ∧ (∀ (a : Config) (v : Nat), v ≠ a.z_effective →
          Config.operator_eq a { a with z_effective := v } = false)
      ∧ (∀ (a : Config) (v : Nat), v ≠ a.energy_straggling →
          Config.operator_eq a { a with energy_straggling := v } = false)
      ∧ (∀ (a : Config) (v : Nat), v ≠ a.scattering →
          Config.operator_eq a { a with scattering := v } = false)
      ∧ (∀ (a : Config) (v : Bool), v ≠ a.low_energy →
          Config.operator_eq a { a with low_energy := v } = false)
      ∧ (∀ (a : Config) (v : Nat), v ≠ a.grid_resolution →
          Config.operator_eq a { a with grid_resolution := v } = false)
      ∧ (∀ (a : Config) (v : Nat), v ≠ a.accuracy →
          Config.operator_eq a { a with accuracy := v } = false) := by
  have hiff : ∀ a b : Config, Config.operator_eq a b = true ↔
      (a.z_effective = b.z_effective ∧ a.energy_straggling = b.energy_straggling
        ∧ a.scattering = b.scattering ∧ a.low_energy = b.low_energy
        ∧ a.grid_resolution = b.grid_resolution ∧ a.accuracy = b.accuracy) := by
    intro a b
    unfold Config.operator_eq
    simp only [Bool.and_eq_true, beq_iff_eq, and_assoc]
  have hne : ∀ a b : Config,
      ¬ (a.z_effective = b.z_effective ∧ a.energy_straggling = b.energy_straggling
        ∧ a.scattering = b.scattering ∧ a.low_energy = b.low_energy
        ∧ a.grid_resolution = b.grid_resolution ∧ a.accuracy = b.accuracy) →
      Config.operator_eq a b = false := by
    intro a b h
    cases hab : Config.operator_eq a b with
    | false => rfl
    | true => exact absurd ((hiff a b).mp hab) h
  refine ⟨hiff, ?_, ?_, ?_, ?_, ?_, ?_, ?_, ?_, ?_⟩
  · intro a
    exact (hiff a a).mpr ⟨rfl, rfl, rfl, rfl, rfl, rfl⟩
  · intro a b
    rw [Bool.eq_iff_iff, hiff a b, hiff b a]
    constructor
    · rintro ⟨h1, h2, h3, h4, h5, h6⟩
      exact ⟨h1.symm, h2.symm, h3.symm, h4.symm, h5.symm, h6.symm⟩
    · rintro ⟨h1, h2, h3, h4, h5, h6⟩
      exact ⟨h1.symm, h2.symm, h3.symm, h4.symm, h5.symm, h6.symm⟩
  · intro a b c hab hbc
    obtain ⟨h1, h2, h3, h4, h5, h6⟩ := (hiff a b).mp hab
    obtain ⟨k1, k2, k3, k4, k5, k6⟩ := (hiff b c).mp hbc
    exact (hiff a c).mpr ⟨h1.trans k1, h2.trans k2, h3.trans k3, h4.trans k4,
      h5.trans k5, h6.trans k6⟩
  · intro a v hv
    exact hne _ _ (fun h => hv h.1.symm)
  · intro a v hv
    exact hne _ _ (fun h => hv h.2.1.symm)
  · intro a v hv
    exact hne _ _ (fun h => hv h.2.2.1.symm)
  · intro a v hv
    exact hne _ _ (fun h => hv h.2.2.2.1.symm)
  · intro a v hv
    exact hne _ _ (fun h => hv h.2.2.2.2.1.symm)
  · intro a v hv
    exact hne _ _ (fun h => hv h.2.2.2.2.2.symm)

/-- C8 at concrete inputs: a config equals itself, and switching the
low-energy extrapolation off, or raising the grid resolution, gives a config
that is not equal to it. -/
theorem Config.operator_eq_iff_witness :
    Config.operator_eq ⟨1, 0, 0, true, 100, 1⟩ ⟨1, 0, 0, true, 100, 1⟩ = true
      ∧ Config.operator_eq ⟨1, 0, 0, true, 100, 1⟩ ⟨1, 0, 0, false, 100, 1⟩ = false
      ∧ Config.operator_eq ⟨1, 0, 0, true, 100, 1⟩ ⟨1, 0, 0, true, 200, 1⟩ = false :=
  ⟨Config.operator_eq_iff.2.1 ⟨1, 0, 0, true, 100, 1⟩,
   Config.operator_eq_iff.2.2.2.2.2.2.2.1 ⟨1, 0, 0, true, 100, 1⟩ false (by decide),
   Config.operator_eq_iff.2.2.2.2.2.2.2.2.1 ⟨1, 0, 0, true, 100, 1⟩ 200 (by decide)⟩

end catima
